import Mathlib

/-!
Verification development for the Blockly screen-reader plugin
(src/screen-reader/screen_reader.ts and src/test/block_descriptions.ts).

The announcement scheduler is embedded as a pure state machine: the mutable
fields of the ScreenReader class become a record, and each method or event
handler becomes a function from state to state.  Timers (setTimeout) are
modelled by recording their fire time and payload in the state; the
environment fires them through explicit transition functions.  The speech
output device (window.speechSynthesis) is modelled by a queue of utterance
texts plus a log of every text handed to the device; speechSynthesis.speaking
is modelled as the queue being nonempty, and speechSynthesis.cancel clears
the queue.  The platform speech capability is assumed present (the
speechSynthesis-in-window checks are true), since no claim concerns device
absence.  Date.now() values are passed in explicitly as natural numbers.
-/

namespace BlocklyScreenReader

/-- Announcement priority, as in speak(message, priority). -/
inductive Priority where
  | normal
  | high
deriving DecidableEq, Repr

/-- The mutable state of the ScreenReader speech engine together with the
modelled output device.  Fields mirror the class fields of the source:
isEnabled, currentUtterance (the text of the utterance held in the register),
utteranceStartTime, pendingMessage, interruptionTimer (fire time and the
message captured by the timer closure), isSpeaking.  settleTimers holds the
anonymous setTimeout callbacks created by interruptCurrentAndSpeak (50ms) and
forceSpeek (100ms), again as fire time plus captured message.  deviceQueue
and spoken model the output device: spoken logs every text passed to
window.speechSynthesis.speak, in order. -/
structure SRState where
  isEnabled : Bool
  currentUtterance : Option String
  utteranceStartTime : Nat
  pendingMessage : Option String
  interruptionTimer : Option (Nat × String)
  isSpeaking : Bool
  settleTimers : List (Nat × String)
  deviceQueue : List String
  spoken : List String
deriving Repr

/-- minSpeakTime field: minimum time in ms to speak before allowing interruption. -/
def minSpeakTime : Nat := 500

/-- interruptionDelay field: grace period before interrupting. -/
def interruptionDelay : Nat := 300

/-- A fresh ScreenReader state: enabled, idle, nothing queued or spoken. -/
def initState : SRState :=
  { isEnabled := true, currentUtterance := none, utteranceStartTime := 0,
    pendingMessage := none, interruptionTimer := none, isSpeaking := false,
    settleTimers := [], deviceQueue := [], spoken := [] }

/-- speakImmediate(message): build an utterance, store it in the register,
record the start time, and hand it to the device.  (The onstart handler that
later sets isSpeaking is the separate onstart transition.) -/
def speakImmediate (st : SRState) (now : Nat) (message : String) : SRState :=
  { st with currentUtterance := some message,
            utteranceStartTime := now,
            deviceQueue := st.deviceQueue ++ [message],
            spoken := st.spoken ++ [message] }

/-- interruptCurrentAndSpeak(message): clear the pending slot, cancel the
device, null the current-utterance register, and schedule speakImmediate of
the captured message after the 50ms settle delay. -/
def interruptCurrentAndSpeak (st : SRState) (now : Nat) (message : String) : SRState :=
  { st with pendingMessage := none,
            deviceQueue := [],
            currentUtterance := none,
            settleTimers := st.settleTimers ++ [(now + 50, message)] }

/-- speak(message, priority): the scheduler entry point.  Mirrors the source
exactly: bail out when disabled; clear the interruption timer; for high
priority clear the pending slot; if an utterance is in the register and the
device is speaking, dispatch on elapsed time; otherwise speak immediately. -/
def speak (st : SRState) (now : Nat) (message : String) (priority : Priority) : SRState :=
  if st.isEnabled = false then st
  else
    let st1 : SRState := { st with interruptionTimer := none }
    let st2 : SRState :=
      if priority = Priority.high then { st1 with pendingMessage := none } else st1
    if st2.currentUtterance.isSome ∧ st2.deviceQueue ≠ [] then
      let timeSpoken := now - st2.utteranceStartTime
      if priority = Priority.high ∧ timeSpoken > 200 then
        interruptCurrentAndSpeak st2 now message
      else if timeSpoken < minSpeakTime then
        { st2 with pendingMessage := some message,
                   interruptionTimer :=
                     some (now + (minSpeakTime - timeSpoken + interruptionDelay), message) }
      else
        interruptCurrentAndSpeak st2 now message
    else
      speakImmediate st2 now message

/-- forceSpeek(message): blocked when disabled; otherwise clears the
interruption timer and the pending slot, cancels the device, nulls the
register, and schedules speakImmediate after a 100ms settle delay. -/
def forceSpeek (st : SRState) (now : Nat) (message : String) : SRState :=
  if st.isEnabled = false then st
  else
    { st with interruptionTimer := none,
              pendingMessage := none,
              deviceQueue := [],
              currentUtterance := none,
              settleTimers := st.settleTimers ++ [(now + 100, message)] }

/-- setEnabled(enabled): on disable, cancel the device and clear the
current-utterance and pending registers.  Note that the source does not
clear the interruption timer or any armed settle delay here. -/
def setEnabled (st : SRState) (enabled : Bool) : SRState :=
  if enabled then { st with isEnabled := enabled }
  else
    { st with isEnabled := enabled,
              deviceQueue := [],
              currentUtterance := none,
              pendingMessage := none }

/-- The interruption timer fires: the callback captured the message and calls
interruptCurrentAndSpeak with it (with no enabled check).  The timer is no
longer armed afterwards; the source leaves the stale timer id in the field,
which is behaviourally equivalent because clearing a fired timeout is a
no-op. -/
def timerFire (st : SRState) (now : Nat) : SRState :=
  match st.interruptionTimer with
  | none => st
  | some (_, message) =>
      interruptCurrentAndSpeak { st with interruptionTimer := none } now message

/-- A settle-delay timeout (from interruptCurrentAndSpeak or forceSpeek)
fires: it calls speakImmediate with the captured message, with no enabled
check.  The index selects which armed settle timeout fires. -/
def settleFire (st : SRState) (now : Nat) (i : Nat) : SRState :=
  match st.settleTimers.get? i with
  | none => st
  | some (_, message) =>
      speakImmediate { st with settleTimers := st.settleTimers.eraseIdx i } now message

/-- The utterance.onstart handler of the utterance the device starts. -/
def onstart (st : SRState) : SRState :=
  if st.deviceQueue.isEmpty then st else { st with isSpeaking := true }

/-- The utterance.onend handler fires when the device finishes the head of
its queue naturally: clear isSpeaking and the register, then drain the
pending slot through speak (normal priority), exactly as the source. -/
def onend (st : SRState) (now : Nat) : SRState :=
  match st.deviceQueue with
  | [] => st
  | _ :: rest =>
      let st1 : SRState :=
        { st with deviceQueue := rest, isSpeaking := false, currentUtterance := none }
      match st1.pendingMessage with
      | some pending => speak { st1 with pendingMessage := none } now pending Priority.normal
      | none => st1

/-- The utterance.onerror handler: the device reports a mid-utterance
failure for the head of its queue.  The source only logs, clears isSpeaking
and the register; it does not touch the pending slot and does not retry. -/
def onerror (st : SRState) : SRState :=
  match st.deviceQueue with
  | [] => st
  | _ :: rest =>
      { st with deviceQueue := rest, isSpeaking := false, currentUtterance := none }

/-!
Text normalizer: cleanTextForScreenReader.  JavaScript string operations are
embedded over lists of characters.  Each regex replacement of the source is a
dedicated scanner implementing leftmost, non-overlapping matching, as the
JavaScript global replace does.
-/

/-- Characters matched by the JavaScript whitespace class, used both by
String.prototype.trim and by the backslash-s regex class. -/
def isJsWhitespace (c : Char) : Bool :=
  c = ' ' || c = '\t' || c = '\n' || c = '\r' || c = '\u000B' || c = '\u000C' ||
  c = ' ' || c = ' ' || (' ' ≤ c && c ≤ ' ') || c = ' ' ||
  c = ' ' || c = ' ' || c = ' ' || c = '　' || c = '﻿'

/-- Invisible directional-control characters removed first: U+200E, U+200F
and U+202A through U+202E. -/
def isInvisibleDirectional (c : Char) : Bool :=
  c = '‎' || c = '‏' || ('‪' ≤ c && c ≤ '‮')

/-- String.prototype.trim on a character list. -/
def jsTrimL (l : List Char) : List Char :=
  ((l.dropWhile isJsWhitespace).reverse.dropWhile isJsWhitespace).reverse

/-- Replace a leading hash with the word number (the anchored regex has no
global flag, so at most one replacement happens). -/
def replaceHashHead : List Char → List Char
  | '#' :: rest => "number".data ++ rest
  | l => l

/-- Global replace of whitespace-hash-whitespace with space-number-space. -/
def replaceWsHashWs : List Char → List Char
  | a :: '#' :: b :: rest =>
      if isJsWhitespace a && isJsWhitespace b then
        " number ".data ++ replaceWsHashWs rest
      else
        a :: replaceWsHashWs ('#' :: b :: rest)
  | c :: cs => c :: replaceWsHashWs cs
  | [] => []

/-- Replace of whitespace-hash at the end of the string with space-number. -/
def replaceWsHashEnd (l : List Char) : List Char :=
  match l.reverse with
  | '#' :: w :: rest =>
      if isJsWhitespace w then rest.reverse ++ " number".data else l
  | _ => l

/-- Global replace of hash whitespace from whitespace the whitespace end. -/
def replaceHashFromTheEnd : List Char → List Char
  | '#' :: a :: 'f' :: 'r' :: 'o' :: 'm' :: b :: 't' :: 'h' :: 'e' :: c :: 'e' :: 'n' :: 'd' :: rest =>
      if isJsWhitespace a && isJsWhitespace b && isJsWhitespace c then
        "number from the end".data ++ replaceHashFromTheEnd rest
      else
        '#' :: replaceHashFromTheEnd
          (a :: 'f' :: 'r' :: 'o' :: 'm' :: b :: 't' :: 'h' :: 'e' :: c :: 'e' :: 'n' :: 'd' :: rest)
  | c :: cs => c :: replaceHashFromTheEnd cs
  | [] => []

/-- Global replace of hash whitespace from whitespace end. -/
def replaceHashFromEnd : List Char → List Char
  | '#' :: a :: 'f' :: 'r' :: 'o' :: 'm' :: b :: 'e' :: 'n' :: 'd' :: rest =>
      if isJsWhitespace a && isJsWhitespace b then
        "number from end".data ++ replaceHashFromEnd rest
      else
        '#' :: replaceHashFromEnd (a :: 'f' :: 'r' :: 'o' :: 'm' :: b :: 'e' :: 'n' :: 'd' :: rest)
  | c :: cs => c :: replaceHashFromEnd cs
  | [] => []

/-- Global replace for the source pattern hash backslash-s from backslash-s tart:
the source wrote backslash-start intending the word start, but backslash-s
followed by tart is what the regex actually matches.  Embedded faithfully. -/
def replaceHashFromTart : List Char → List Char
  | '#' :: a :: 'f' :: 'r' :: 'o' :: 'm' :: b :: 't' :: 'a' :: 'r' :: 't' :: rest =>
      if isJsWhitespace a && isJsWhitespace b then
        "number from start".data ++ replaceHashFromTart rest
      else
        '#' :: replaceHashFromTart (a :: 'f' :: 'r' :: 'o' :: 'm' :: b :: 't' :: 'a' :: 'r' :: 't' :: rest)
  | c :: cs => c :: replaceHashFromTart cs
  | [] => []

/-- The six hash replacements, chained in source order. -/
def hashRules (l : List Char) : List Char :=
  replaceHashFromTart (replaceHashFromEnd (replaceHashFromTheEnd
    (replaceWsHashEnd (replaceWsHashWs (replaceHashHead l)))))

/-- One anchored case-insensitive prefix replacement, as in a regex of the
shape caret-pattern with the i flag: if the lowercased head of the string is
the pattern, substitute the replacement for it. -/
def stripPrefixCI (pat repl l : List Char) : List Char :=
  if (l.take pat.length).map Char.toLower = pat then repl ++ l.drop pat.length else l

/-- The chained function-name replacements of the parenthesis branch, in
source order, followed by removal of a trailing closing parenthesis. -/
def funcReplace (l : List Char) : List Char :=
  let l := stripPrefixCI "sin(".data "sine of ".data l
  let l := stripPrefixCI "cos(".data "cosine of ".data l
  let l := stripPrefixCI "tan(".data "tangent of ".data l
  let l := stripPrefixCI "asin(".data "arcsine of ".data l
  let l := stripPrefixCI "acos(".data "arccosine of ".data l
  let l := stripPrefixCI "atan(".data "arctangent of ".data l
  let l := stripPrefixCI "ln(".data "natural logarithm of ".data l
  let l := stripPrefixCI "log(".data "logarithm of ".data l
  let l := stripPrefixCI "abs(".data "absolute value of ".data l
  if l.getLast? = some ')' then l.dropLast else l

/-- The symbolMap object: exact-match translations for operators, constants
and Greek letters. -/
def symbolMap : String → Option String
  | "#" => some "number"
  | "<=" => some "less than or equal"
  | "≤" => some "less than or equal"
  | ">=" => some "greater than or equal"
  | "≥" => some "greater than or equal"
  | "≠" => some "not equal"
  | "!=" => some "not equal"
  | "=" => some "equals"
  | "<" => some "less than"
  | ">" => some "greater than"
  | "+" => some "plus"
  | "-" => some "minus"
  | "×" => some "times"
  | "*" => some "times"
  | "÷" => some "divided by"
  | "/" => some "divided by"
  | "^" => some "to the power of"
  | "√" => some "square root"
  | "∛" => some "cube root"
  | "&&" => some "and"
  | "||" => some "or"
  | "∧" => some "and"
  | "∨" => some "or"
  | "¬" => some "not"
  | "!" => some "not"
  | "π" => some "pi"
  | "e" => some "e"
  | "∞" => some "infinity"
  | "φ" => some "phi"
  | "%" => some "percent"
  | "°" => some "degrees"
  | "∈" => some "is in"
  | "∉" => some "is not in"
  | "∅" => some "empty set"
  | "α" => some "alpha"
  | "β" => some "beta"
  | "γ" => some "gamma"
  | "δ" => some "delta"
  | "θ" => some "theta"
  | "λ" => some "lambda"
  | "μ" => some "mu"
  | "σ" => some "sigma"
  | "Σ" => some "sum"
  | "Π" => some "product"
  | _ => none

/-- Per-character subscript and superscript substitutions (the chained
global replaces are equivalent to a single pass because no replacement text
contains a substituted character). -/
def subsupStr (c : Char) : List Char :=
  match c with
  | '₀' => " sub 0".data
  | '₁' => " sub 1".data
  | '₂' => " sub 2".data
  | '₃' => " sub 3".data
  | '₄' => " sub 4".data
  | '₅' => " sub 5".data
  | '₆' => " sub 6".data
  | '₇' => " sub 7".data
  | '₈' => " sub 8".data
  | '₉' => " sub 9".data
  | '²' => " squared".data
  | '³' => " cubed".data
  | 'ⁿ' => " to the n".data
  | 'ˣ' => " to the x".data
  | _ => [c]

/-- The tail of cleanTextForScreenReader after the whole-string special forms
and the hash branch: parenthesised function rewriting, symbol table lookup,
subscript and superscript substitution, and the readableText-or-text return.
The text argument is the original input, returned when the result is empty. -/
def cleanTextTail (text : String) (l : List Char) : String :=
  if l.contains '(' && l.contains ')' then
    ⟨funcReplace l⟩
  else
    match symbolMap ⟨l⟩ with
    | some v => v
    | none =>
        let r := l.foldr (fun c acc => subsupStr c ++ acc) []
        if r = [] then text else ⟨r⟩

/-- cleanTextForScreenReader(text): the text normalizer.  Strips invisible
directional characters and trims; handles the whole-string power forms and
the sqrt call form; rewrites hash in context, returning early only when that
changed the trimmed original; then falls through to cleanTextTail. -/
def cleanTextForScreenReader (text : String) : String :=
  let ct0 := jsTrimL ((text.data).filter (fun c => !(isInvisibleDirectional c)))
  let cleanText : String := ⟨ct0⟩
  if cleanText = "10^" then "10 to the power of"
  else if cleanText = "e^" then "e to the power of"
  else if "sqrt(".data.isPrefixOf ct0 && ct0.getLast? = some ')' then
    let content := (ct0.drop 5).dropLast
    if content = "2".data then "square root of 2"
    else if content = "1/2".data then "square root of one half"
    else "square root of " ++ ⟨content⟩
  else if ct0.contains '#' then
    let afterHash := hashRules ct0
    if afterHash ≠ jsTrimL text.data then ⟨afterHash⟩
    else cleanTextTail text afterHash
  else cleanTextTail text ct0

/-- Sample inputs over which idempotence of the normalizer is checked: the
sample forms named by the spec plus representatives of every rule family. -/
def normalizeSamples : List String :=
  ["<=", "≤", ">=", "≥", "!=", "≠", "=", "<", ">", "+", "-", "*", "/", "^",
   "&&", "||", "!", "π", "e", "∞", "%", "°", "10^", "e^", "sqrt(2)",
   "sqrt(1/2)", "sqrt(x)", "#", "1 # 2", "# from the end", "sin(x)", "ln(2)",
   "abs(y)", "x₂", "a²", "hello", "hello world", "repeat 10 times"]

/-!
NavigationNode identity: getNodeIdentifier.  An AST node is modelled by its
observable kind plus the data the identifier reads: the id of the referenced
block (an Option, none when the location or its source block is null), and
the connection type, field name or input name.  The workspace constructor
carries the workspace it points at to witness that the identifier ignores
it.  Connection types are the numeric Blockly connection constants. -/
inductive ASTNode where
  | block (blockId : Option String)
  | workspace (wsId : String)
  | stack (blockId : Option String)
  | connection (blockId : Option String) (connType : Nat)
  | field (blockId : Option String) (fieldName : String)
  | input (blockId : Option String) (inputName : String)
  | other (typeName : String)

/-- The JavaScript id-or-unknown pattern: block question-dot id or-else the
word unknown.  A missing block, a missing id and an empty id (falsy) all
give unknown. -/
def orUnknown : Option String → String
  | some s => if s = "" then "unknown" else s
  | none => "unknown"

/-- getNodeIdentifier(node): the stable string key for a navigable
location. -/
def getNodeIdentifier : ASTNode → String
  | ASTNode.block bid => "block-" ++ orUnknown bid
  | ASTNode.workspace _ => "workspace"
  | ASTNode.stack bid => "stack-" ++ orUnknown bid
  | ASTNode.connection bid t => "connection-" ++ orUnknown bid ++ "-" ++ toString t
  | ASTNode.field bid n => "field-" ++ orUnknown bid ++ "-" ++ n
  | ASTNode.input bid n => "input-" ++ orUnknown bid ++ "-" ++ n
  | ASTNode.other t => "unknown-" ++ t

/-!
Entity describer: getBlockMessage (src/test/block_descriptions.ts) and the
getBlockDescription wrapper of the ScreenReader class.

A block is modelled by its type tag, its fields (each with its name, its
getValue result, its getText result and its EDITABLE flag) and its connected
inputs.  Field getValue results are Options, with none standing for the
JavaScript null returned when the field is missing or holds null.  Template
literal interpolation of null renders the string null, and object-map lookup
with a missing key yields undefined which interpolates as the string
undefined; the helpers jsNull and jsUndef embed those conversions.
-/

/-- A workspace variable as passed to getBlockMessage. -/
structure Variable where
  vname : String
  vid : String

/-- One Blockly field as observed by the describer. -/
structure FieldInfo where
  fname : Option String
  fvalue : Option String
  ftext : String
  editable : Bool

mutual
/-- A Blockly block: type tag, fields (the flattened field rows of all
inputs) and connected input children. -/
inductive Block where
  | mk (btype : String) (bfields : List FieldInfo) (binputs : Inputs)

/-- The connected children of a block, keyed by input name.  An input that
exists but has nothing connected behaves exactly like a missing input for
every operation the describer performs, so only connected children are
listed. -/
inductive Inputs where
  | nil
  | cons (name : String) (child : Block) (rest : Inputs)
end

/-- The type tag of a block. -/
def Block.btype : Block → String
  | Block.mk t _ _ => t

/-- The fields of a block. -/
def Block.bfields : Block → List FieldInfo
  | Block.mk _ fs _ => fs

/-- The connected inputs of a block. -/
def Block.binputs : Block → Inputs
  | Block.mk _ _ ins => ins

/-- getField(name): first field whose name matches. -/
def findField : List FieldInfo → String → Option FieldInfo
  | [], _ => none
  | f :: rest, n => if f.fname = some n then some f else findField rest n

/-- getFieldValue(name) over a field list: null both when the field is
missing and when its value is null. -/
def getFV (fs : List FieldInfo) (n : String) : Option String :=
  match findField fs n with
  | none => none
  | some f => f.fvalue

/-- getFieldValue(name) on a block. -/
def getFieldValue (b : Block) (n : String) : Option String :=
  getFV b.bfields n

/-- getInputTargetBlock(name): the connected child of the named input. -/
def getInputTargetBlock : Inputs → String → Option Block
  | Inputs.nil, _ => none
  | Inputs.cons n c rest, m => if n = m then some c else getInputTargetBlock rest m

/-- Template-literal interpolation of a possibly-null string value. -/
def jsNull : Option String → String
  | none => "null"
  | some s => s

/-- Template-literal interpolation of a possibly-undefined string value. -/
def jsUndef : Option String → String
  | none => "undefined"
  | some s => s

/-- Object-map lookup with a possibly-null key, as in opMessages of op. -/
def mapGet (m : List (String × String)) (k : Option String) : Option String :=
  match k with
  | none => none
  | some s => m.lookup s

/-- The child-message-or-default pattern of the templates: input connected
gives the recursive message (interpolating undefined when the recursive call
returned it), otherwise the placeholder noun. -/
def childMsgOr (cm : List (String × Option String)) (n : String) (dflt : String) : String :=
  match cm.lookup n with
  | none => dflt
  | some m => jsUndef m

/-- variables find of the variable with the given id (null id matches
nothing, absent variables array yields nothing). -/
def findVar (vars : Option (List Variable)) (vid : Option String) : Option Variable :=
  match vars, vid with
  | some vs, some i => vs.find? (fun v => v.vid == i)
  | _, _ => none

/-- The variable-name-or-fallback pattern of the templates. -/
def varNameOr (vars : Option (List Variable)) (vid : Option String) (fallback : String) : String :=
  match findVar vars vid with
  | some v => v.vname
  | none => fallback

/-- The variables_get template body: the bare resolved variable name. -/
def resolvedVarName (vars : Option (List Variable)) (fs : List FieldInfo) : String :=
  match vars with
  | none => "variable"
  | some vs => varNameOr (some vs) (getFV fs "VAR") "variable"

/-- The text_append template interpolates the raw target block object rather
than its message; the platform string conversion of a block is modelled as
an opaque nonempty constant because no claim depends on its content. -/
def blockToStringModel : Block → String :=
  fun _ => "[object Block]"

/-- getDelimiterMessage(delim), including the null flow from a missing TEXT
field of the delimiter block. -/
def getDelimiterMessage (d : Option String) : String :=
  match d with
  | none => "null"
  | some s =>
      match (List.lookup s
        [(",", "comma"), (".", "point"), (" ", "space"), (";", "semicolon"),
         (":", "colon"), ("|", "vertical bar"), ("-", "dash"),
         ("_", "underscore"), ("\n", "newline"), ("\t", "tab")]) with
      | some v => v
      | none => s

/-- The number variant of the repeated pattern: an input whose child is a
math_number contributes that child NUM field value, otherwise a default. -/
def numFieldOr (ins : Inputs) (n : String) (dflt : String) : String :=
  match getInputTargetBlock ins n with
  | some c => if c.btype = "math_number" then jsNull (getFieldValue c "NUM") else dflt
  | none => dflt

/-- The text-variable variant: an input whose child is a variables_get block
contributes the resolved variable name with fallback text. -/
def textVarOr (ins : Inputs) (n : String) (vars : Option (List Variable))
    (cn : List (String × Option String)) (useMsg : Bool) : String :=
  match getInputTargetBlock ins n with
  | some c =>
      if c.btype = "variables_get" then varNameOr vars (getFieldValue c "VAR") "text"
      else if useMsg then childMsgOr cn n "text"
      else "text"
  | none => "text"

/-- The blockDescriptions table and the getBlockMessage fallback, dispatched
on the block type.  fs and ins are the fields and connected inputs of the
block, vars the variables argument, cv the recursive messages of the
connected children computed with vars passed on, and cn those computed with
the variables argument omitted — mirroring which templates forward the
variables array into their recursive calls and which do not.  The result is
none exactly when the template returns undefined, which only the
controls_whileUntil template can do (it returns a map lookup directly
instead of a template literal). -/
def describeTemplate (t : String) (fs : List FieldInfo) (ins : Inputs)
    (vars : Option (List Variable))
    (cv cn : List (String × Option String)) : Option String :=
  match t with
  | "controls_if" =>
      some ("If " ++ childMsgOr cn "IF0" "condition" ++ " then " ++
        childMsgOr cn "DO0" "statement")
  | "logic_compare" =>
      some (childMsgOr cn "A" "value A" ++ " " ++
        jsUndef (mapGet
          [("EQ", "equals"), ("NEQ", "doesn't equal"), ("LT", "is less than"),
           ("LTE", "is less than or equals"), ("GT", "is greater than"),
           ("GTE", "is greater than or equals")] (getFV fs "OP")) ++ " " ++
        childMsgOr cn "B" "value B")
  | "logic_operation" =>
      some (childMsgOr cn "A" "value A" ++ " " ++
        jsUndef (mapGet [("AND", "and"), ("OR", "or")] (getFV fs "OP")) ++ " " ++
        childMsgOr cn "B" "value B")
  | "logic_negate" =>
      some ("Not " ++ childMsgOr cn "BOOL" "")
  | "logic_boolean" =>
      some (jsUndef (mapGet [("TRUE", "true"), ("FALSE", "false")] (getFV fs "BOOL")))
  | "logic_ternary" =>
      some ("If " ++ childMsgOr cn "IF" "condition" ++ " then " ++
        childMsgOr cn "THEN" "statement A" ++ ", else " ++
        childMsgOr cn "ELSE" "statement B")
  | "controls_repeat_ext" =>
      some ("Repeat the following " ++ numFieldOr ins "TIMES" "NUM" ++ " times: " ++
        childMsgOr cn "DO" "statements")
  | "controls_whileUntil" =>
      match getFV fs "MODE" with
      | some "WHILE" =>
          some ("While " ++ childMsgOr cn "BOOL" "condition" ++ " is true, repeat " ++
            childMsgOr cn "DO" "statements" ++ ".")
      | some "UNTIL" =>
          some ("Until " ++ childMsgOr cn "BOOL" "condition" ++ " is true, repeat " ++
            childMsgOr cn "DO" "statements" ++ ".")
      | _ => none
  | "controls_for" =>
      some ("Count with " ++ varNameOr vars (getFV fs "VAR") "variable" ++ " from " ++
        numFieldOr ins "FROM" "start value" ++ " to " ++
        numFieldOr ins "TO" "end value" ++ " by " ++
        numFieldOr ins "BY" "increment" ++ ", then " ++
        childMsgOr cv "DO" "statements")
  | "controls_forEach" =>
      some ("For each item " ++ varNameOr vars (getFV fs "VAR") "variable" ++ " in " ++
        childMsgOr cv "LIST" "list" ++ ", do " ++ childMsgOr cv "DO" "statements")
  | "math_number" =>
      some (jsNull (getFV fs "NUM"))
  | "math_arithmetic" =>
      some (childMsgOr cn "A" "value A" ++ " " ++
        jsUndef (mapGet
          [("ADD", "add to"), ("MINUS", "minus"), ("MULTIPLY", "times"),
           ("DIVIDE", "divided by"), ("POWER", "to the power of")] (getFV fs "OP")) ++
        " " ++ childMsgOr cn "B" "value B")
  | "math_single" =>
      some (jsUndef (mapGet
          [("ROOT", "square root of"), ("ABS", "absolute"), ("NEG", "negative"),
           ("LN", "natural logarithm of"), ("LOG10", "base 10 logarithm of"),
           ("EXP", "e to the power of"), ("POW10", "10 to the power of")]
          (getFV fs "OP")) ++ " " ++ childMsgOr cn "NUM" "value")
  | "math_trig" =>
      some (jsUndef (mapGet
          [("SIN", "sine"), ("COS", "cosine"), ("TAN", "tangent"),
           ("ASIN", "asine"), ("ACOS", "acosine"), ("ATAN", "atangent")]
          (getFV fs "OP")) ++ " " ++ childMsgOr cn "NUM" "value")
  | "math_constant" =>
      some (jsUndef (mapGet
          [("PI", "pi"), ("E", "e"), ("GOLDEN_RATIO", "golden ratio"),
           ("SQRT2", "square root of 2"), ("SQRT1_2", "square root of half"),
           ("INFINITY", "infinity")] (getFV fs "CONSTANT")))
  | "math_number_property" =>
      if getFV fs "PROPERTY" = some "DIVISIBLE_BY" then
        some (childMsgOr cn "NUMBER_TO_CHECK" "value" ++ " is divisible by " ++
          childMsgOr cn "DIVISOR" "value B")
      else
        some (childMsgOr cn "NUMBER_TO_CHECK" "value" ++ " " ++
          jsUndef (mapGet
            [("EVEN", "is even"), ("ODD", "is odd"), ("PRIME", "is prime"),
             ("WHOLE", "is whole"), ("POSITIVE", "is positive"),
             ("NEGATIVE", "is negative"), ("DIVISIBLE_BY", "is divisible by")]
            (getFV fs "PROPERTY")))
  | "math_round" =>
      some (jsUndef (mapGet
          [("ROUND", "round"), ("ROUNDUP", "round up"), ("ROUNDDOWN", "round down")]
          (getFV fs "OP")) ++ " " ++ childMsgOr cn "NUM" "value")
  | "math_on_list" =>
      some (jsUndef (mapGet
          [("SUM", "sum of"), ("MIN", "minimum of"), ("MAX", "maximum of"),
           ("AVERAGE", "average of"), ("MEDIAN", "median of"), ("MODE", "modes of"),
           ("STD_DEV", "standard deviation of"), ("RANDOM", "random item of")]
          (getFV fs "OP")) ++ " " ++ childMsgOr cn "LIST" "list")
  | "math_modulo" =>
      some ("remainder of " ++ childMsgOr cn "DIVIDEND" "value A" ++ " divided by " ++
        childMsgOr cn "DIVISOR" "value B")
  | "math_constrain" =>
      some ("Constrain " ++ childMsgOr cn "VALUE" "value" ++ " between " ++
        childMsgOr cn "LOW" "value A" ++ " and " ++ childMsgOr cn "HIGH" "value B")
  | "math_random_int" =>
      some ("Random integer from " ++ childMsgOr cn "FROM" "value A" ++ " to " ++
        childMsgOr cn "TO" "value B")
  | "math_random_float" =>
      some "random fraction"
  | "math_atan2" =>
      some ("Arctangent of point (" ++ childMsgOr cn "X" "X" ++ ", " ++
        childMsgOr cn "Y" "Y" ++ ")")
  | "text" =>
      some (if (match getFV fs "TEXT" with | none => "" | some s => s) = "" then "text"
        else (match getFV fs "TEXT" with | none => "" | some s => s))
  | "text_join" =>
      some ("Join: " ++ childMsgOr cn "ADD0" "text A" ++ ", and: " ++
        childMsgOr cn "ADD1" "text B")
  | "text_append" =>
      some ("To " ++ varNameOr vars (getFV fs "VAR") "variable" ++ ", append text " ++
        (match getInputTargetBlock ins "TEXT" with
         | none => "null"
         | some c => blockToStringModel c))
  | "text_length" =>
      some ("Length of " ++ childMsgOr cn "VALUE" "text")
  | "text_isEmpty" =>
      some ("Is " ++ childMsgOr cn "VALUE" "text" ++ " empty")
  | "text_indexOf" =>
      some ("In text " ++ textVarOr ins "VALUE" vars cn false ++ ", find " ++
        (if getFV fs "END" = some "FIRST" then "first" else "last") ++
        " occurrence of text " ++ childMsgOr cn "FIND" "text")
  | "text_charAt" =>
      some ("In text " ++ textVarOr ins "VALUE" vars cn true ++ " get " ++
        jsUndef (mapGet
          [("FROM_START", "letter number " ++ childMsgOr cn "AT" " "),
           ("FROM_END", "letter number " ++ childMsgOr cn "AT" " " ++ " from the end"),
           ("FIRST", "first letter"), ("LAST", "last letter"),
           ("RANDOM", "random letter")] (getFV fs "WHERE")))
  | "text_getSubstring" =>
      some ("In text " ++ textVarOr ins "STRING" vars cn true ++
        " get substring from " ++
        jsUndef (mapGet
          [("FROM_START", "letter " ++ childMsgOr cn "AT1" "number"),
           ("FROM_END", "letter " ++ childMsgOr cn "AT1" "number" ++ " from the end"),
           ("FIRST", "first letter"), ("LAST", "last letter")] (getFV fs "WHERE1")) ++
        " to " ++
        jsUndef (mapGet
          [("FROM_START", "letter " ++ childMsgOr cn "AT1" "number"),
           ("FROM_END", "letter " ++ childMsgOr cn "AT1" "number" ++ " from the end"),
           ("FIRST", "first letter"), ("LAST", "last letter")] (getFV fs "WHERE2")))
  | "text_changeCase" =>
      some ("To " ++
        jsUndef (mapGet
          [("UPPERCASE", "uppercase"), ("LOWERCASE", "lowercase"),
           ("TITLECASE", "title case")] (getFV fs "CASE")) ++ " " ++
        childMsgOr cn "TEXT" "text")
  | "text_trim" =>
      some ("Trim spaces from " ++
        jsUndef (mapGet
          [("BOTH", "both sides"), ("LEFT", "left side"), ("RIGHT", "right side")]
          (getFV fs "MODE")) ++ " of: " ++ childMsgOr cn "TEXT" "text")
  | "text_count" =>
      some ("Count " ++ childMsgOr cn "SUB" "" ++ ", in " ++ childMsgOr cn "TEXT" "")
  | "text_replace" =>
      some ("Replace " ++ childMsgOr cn "FROM" "text A" ++ ", with " ++
        childMsgOr cn "TO" "text B" ++ ", in " ++ childMsgOr cn "TEXT" "text C")
  | "text_reverse" =>
      some ("Reverse " ++ childMsgOr cn "TEXT" "text")
  | "text_print" =>
      some ("Print " ++ childMsgOr cn "TEXT" "text")
  | "text_prompt_ext" =>
      some ("Prompt for " ++
        jsUndef (mapGet [("TEXT", "text"), ("NUMBER", "number")] (getFV fs "TYPE")) ++
        " with message " ++ childMsgOr cn "TEXT" "message text")
  | "lists_create_with" =>
      some ("Create list with " ++ childMsgOr cv "ADD0" "block 1" ++ ", " ++
        childMsgOr cv "ADD1" "block 2" ++ ", " ++ childMsgOr cv "ADD2" "block 3")
  | "lists_repeat" =>
      some ("Create list with " ++ childMsgOr cv "ITEM" "item" ++ ", repeated " ++
        childMsgOr cv "NUM" "n" ++ " times")
  | "lists_length" =>
      some ("Length of " ++ childMsgOr cv "VALUE" "list")
  | "lists_isEmpty" =>
      some ("Is " ++ childMsgOr cv "VALUE" "list" ++ " empty")
  | "lists_indexOf" =>
      some ("In " ++ childMsgOr cv "VALUE" "list" ++ ", find " ++
        (if getFV fs "END" = some "FIRST" then "first" else "last") ++
        " occurrence of " ++ childMsgOr cv "FIND" "item" ++ ".")
  | "lists_getIndex" =>
      some ("In " ++ childMsgOr cv "VALUE" "list" ++ " " ++
        jsUndef (mapGet
          [("GET", "get"), ("GET_REMOVE", "get and remove"), ("REMOVE", "remove")]
          (getFV fs "MODE")) ++ " " ++
        jsUndef (mapGet
          [("FROM_START", "letter " ++ childMsgOr cv "AT" "item"),
           ("FROM_END", "letter " ++ childMsgOr cv "AT" "item" ++ ", from the end"),
           ("FIRST", "first letter"), ("LAST", "last letter"),
           ("RANDOM", "random letter")] (getFV fs "WHERE")))
  | "lists_setIndex" =>
      some ("In " ++ childMsgOr cv "LIST" "list" ++ ", " ++
        jsUndef (mapGet [("SET", "set"), ("INSERT", "insert at")] (getFV fs "MODE")) ++
        " " ++
        jsUndef (mapGet
          [("FROM_START", "letter " ++ childMsgOr cv "AT" "number"),
           ("FROM_END", "letter " ++ childMsgOr cv "AT" "number" ++ ", from the end"),
           ("FIRST", "first letter"), ("LAST", "last letter"),
           ("RANDOM", "random letter")] (getFV fs "WHERE")) ++
        " as " ++ childMsgOr cv "TO" "item" ++ " ")
  | "lists_getSublist" =>
      some ("In " ++ childMsgOr cv "LIST" "list" ++ " get sublist from " ++
        jsUndef (mapGet
          [("FROM_START", "letter " ++ childMsgOr cv "AT1" "start"),
           ("FROM_END", "letter " ++ childMsgOr cv "AT1" "start" ++ " from the end"),
           ("FIRST", "first letter")] (getFV fs "WHERE1")) ++
        " to " ++
        jsUndef (mapGet
          [("FROM_START", "letter " ++ childMsgOr cv "AT2" "end"),
           ("FROM_END", "letter " ++ childMsgOr cv "AT2" "end" ++ " from the end"),
           ("LAST", "last letter")] (getFV fs "WHERE2")))
  | "lists_split" =>
      some ("Make " ++
        jsUndef (mapGet [("SPLIT", "list from text"), ("JOIN", "text from list")]
          (getFV fs "MODE")) ++ " " ++ childMsgOr cv "INPUT" "" ++
        " with delimiter " ++
        (match getInputTargetBlock ins "DELIM" with
         | some c => getDelimiterMessage (getFieldValue c "TEXT")
         | none => "delimiter"))
  | "lists_sort" =>
      some ("Sort " ++ childMsgOr cv "LIST" "list" ++ " " ++
        jsUndef (mapGet
          [("NUMERIC", "numerically"), ("TEXT", "alphabetically"),
           ("IGNORE_CASE", "alphabetically, ignoring case")] (getFV fs "TYPE")) ++
        " in " ++
        jsUndef (mapGet [("1", "ascending"), ("-1", "descending")]
          (getFV fs "DIRECTION")) ++ " order")
  | "lists_reverse" =>
      some ("Reverse " ++ childMsgOr cv "LIST" "list")
  | "variables_get" =>
      some (resolvedVarName vars fs)
  | "variables_set" =>
      some ("Set " ++ varNameOr vars (getFV fs "VAR") "variable" ++ " to " ++
        childMsgOr cv "VALUE" "value")
  | "math_change" =>
      some ("Change " ++ varNameOr vars (getFV fs "VAR") "variable" ++ " by " ++
        childMsgOr cv "DELTA" "delta")
  | "procedures_defnoreturn" =>
      some ("Function " ++ jsNull (getFV fs "NAME") ++ " does " ++
        childMsgOr cv "STACK" "nothing")
  | "procedures_defreturn" =>
      some ("Function " ++ jsNull (getFV fs "NAME") ++ " does " ++
        childMsgOr cv "STACK" "nothing" ++ " and returns " ++
        childMsgOr cv "RETURN" "nothing")
  | "procedures_ifreturn" =>
      some ("If " ++ childMsgOr cv "CONDITION" "condition" ++ " return " ++
        childMsgOr cv "VALUE" "value")
  | _ => some ("Block of type " ++ t)

mutual
/-- getBlockMessage(block, variables): dispatch through the template table
with the Block-of-type fallback.  Recursive child messages are precomputed
in two contexts, with the variables argument forwarded and with it
omitted. -/
def getBlockMessage (b : Block) (vars : Option (List Variable)) : Option String :=
  match b with
  | Block.mk t fs ins =>
      describeTemplate t fs ins vars (childMsgs ins vars) (childMsgs ins none)

/-- The recursive messages of all connected children, keyed by input name. -/
def childMsgs (ins : Inputs) (vars : Option (List Variable)) :
    List (String × Option String) :=
  match ins with
  | Inputs.nil => []
  | Inputs.cons n c rest => (n, getBlockMessage c vars) :: childMsgs rest vars
end

/-- The keys of the blockDescriptions table. -/
def tableKeys : List String :=
  ["controls_if", "logic_compare", "logic_operation", "logic_negate",
   "logic_boolean", "logic_ternary", "controls_repeat_ext",
   "controls_whileUntil", "controls_for", "controls_forEach", "math_number",
   "math_arithmetic", "math_single", "math_trig", "math_constant",
   "math_number_property", "math_round", "math_on_list", "math_modulo",
   "math_constrain", "math_random_int", "math_random_float", "math_atan2",
   "text", "text_join", "text_append", "text_length", "text_isEmpty",
   "text_indexOf", "text_charAt", "text_getSubstring", "text_changeCase",
   "text_trim", "text_count", "text_replace", "text_reverse", "text_print",
   "text_prompt_ext", "lists_create_with", "lists_repeat", "lists_length",
   "lists_isEmpty", "lists_indexOf", "lists_getIndex", "lists_setIndex",
   "lists_getSublist", "lists_split", "lists_sort", "lists_reverse",
   "variables_get", "variables_set", "math_change", "procedures_defnoreturn",
   "procedures_defreturn", "procedures_ifreturn"]

/-- The block types special-cased by the getBlockDescription wrapper. -/
def specialKeys : List String :=
  ["p5_setup", "p5_draw", "p5_canvas", "math_number", "draw_emoji",
   "simple_circle", "colour_picker"]

/-- getEmojiName on an actual string argument. -/
def getEmojiNameS (s : String) : String :=
  match (List.lookup s
    [("❤️", "red heart"), ("✨", "sparkles"), ("🻠", "bear face"),
     ("🌟", "glowing star"), ("🌈", "rainbow"), ("🎈", "balloon"),
     ("🎨", "artist palette"), ("🌺", "hibiscus flower"),
     ("🦋", "butterfly"), ("🌙", "crescent moon")]) with
  | some n => n
  | none => "emoji " ++ s

/-- One hexadecimal digit. -/
def hexDigitVal (c : Char) : Option Nat :=
  if '0' ≤ c ∧ c ≤ '9' then some (c.toNat - '0'.toNat)
  else if 'a' ≤ c ∧ c ≤ 'f' then some (c.toNat - 'a'.toNat + 10)
  else if 'A' ≤ c ∧ c ≤ 'F' then some (c.toNat - 'A'.toNat + 10)
  else none

/-- parseInt with radix 16 applied to a substr of at most two characters:
none models NaN (no leading hexadecimal digit); a single leading digit
followed by a non-digit parses as that digit, as parseInt does. -/
def parseIntHexPair (l : List Char) : Option Nat :=
  match l with
  | [] => none
  | c :: rest =>
      match hexDigitVal c with
      | none => none
      | some d =>
          match rest with
          | [] => some d
          | c2 :: _ =>
              match hexDigitVal c2 with
              | none => some d
              | some d2 => some (16 * d + d2)

/-- String.prototype.replace with a plain-string hash pattern removes only
the first occurrence. -/
def jsReplaceFirstHash : List Char → List Char
  | [] => []
  | '#' :: rest => rest
  | c :: cs => c :: jsReplaceFirstHash cs

/-- The RGB classification heuristic for colors missing from the color
table, mirroring the nested conditional expressions of the source. -/
def rgbName (r g b : Nat) : String :=
  if r > g ∧ r > b then
    if g > b then (if r - g > 50 then "reddish orange" else "orange red")
    else (if r - b > 50 then "bright red" else "reddish purple")
  else if g > r ∧ g > b then
    if r > b then (if g - r > 50 then "yellowish green" else "yellow green")
    else (if g - b > 50 then "bright green" else "greenish blue")
  else if b > r ∧ b > g then
    if r > g then (if b - r > 50 then "bluish purple" else "purple blue")
    else (if b - g > 50 then "bright blue" else "teal blue")
  else if r = g ∧ g = b then
    (if r > 200 then "light gray" else if r > 100 then "gray" else "dark gray")
  else "custom color"

/-- getColorNameFromHex(hexColor) on an actual string.  A null argument
never reaches this function: the source would throw on the first method
call, which the callers model explicitly. -/
def getColorNameFromHex (hexColor : String) : String :=
  let h : List Char := (jsReplaceFirstHash hexColor.data).map Char.toLower
  match (List.lookup (⟨h⟩ : String)
    [("ff0000", "red"), ("ff4500", "orange-red"), ("ffa500", "orange"),
     ("ffff00", "yellow"), ("00ff00", "green"), ("008000", "dark green"),
     ("00ffff", "cyan"), ("0000ff", "blue"), ("000080", "navy blue"),
     ("4b0082", "indigo"), ("800080", "purple"), ("9400d3", "dark violet"),
     ("ff00ff", "magenta"), ("ff1493", "deep pink"), ("ffffff", "white"),
     ("000000", "black"), ("c0c0c0", "silver"), ("808080", "gray"),
     ("a52a2a", "brown"), ("ffc0cb", "pink")]) with
  | some n => n
  | none =>
      match parseIntHexPair (h.take 2), parseIntHexPair ((h.drop 2).take 2),
            parseIntHexPair ((h.drop 4).take 2) with
      | some r, some g, some b => rgbName r g b
      | _, _, _ => "custom color"

/-- The simple_circle color resolution: the try block falls back to colored
both when the connected COLOR child is not a colour_picker and when reading
its COLOUR field yields null, in which case getColorNameFromHex throws
inside the try and the catch restores the fallback. -/
def circleColor (b : Block) : String :=
  match getInputTargetBlock b.binputs "COLOR" with
  | some c =>
      if c.btype = "colour_picker" then
        match getFieldValue c "COLOUR" with
        | some hex => getColorNameFromHex hex
        | none => "colored"
      else "colored"
  | none => "colored"

/-- The field-name-or-field pattern of the wrapper (a missing or empty field
name is falsy). -/
def fieldLabel (f : FieldInfo) : String :=
  match f.fname with
  | some n => if n = "" then "field" else n
  | none => "field"

/-- Substring containment, as String.prototype.includes. -/
def containsSub (needle : List Char) : List Char → Bool
  | [] => needle.isEmpty
  | c :: rest => needle.isPrefixOf (c :: rest) || containsSub needle rest

/-- The per-field description of the wrapper fields path: emoji fields are
translated, color-named fields holding hash-prefixed values are translated
through the hex color naming. -/
def fieldDesc (f : FieldInfo) : String :=
  let nm := fieldLabel f
  let v0 := f.ftext
  let v1 := if nm = "emoji" ∧ v0 ≠ "" then getEmojiNameS v0 else v0
  let lowNm := nm.data.map Char.toLower
  let v2 :=
    if (containsSub "color".data lowNm || containsSub "colour".data lowNm) &&
        (match v1.data with | '#' :: _ => true | _ => false) then
      getColorNameFromHex v1
    else v1
  nm ++ ": " ++ v2

/-- The joined field descriptions. -/
def fieldDescs (fs : List FieldInfo) : String :=
  String.intercalate ", " (fs.map fieldDesc)

/-- The sanitized type name: underscores become spaces. -/
def sanitizeType (t : String) : String :=
  ⟨t.data.map (fun c => if c = '_' then ' ' else c)⟩

/-- String.prototype.startsWith. -/
def jsStartsWith (s p : String) : Bool :=
  p.data.isPrefixOf s.data

/-- getBlockDescription(block) of the ScreenReader class.  none models an
exception escaping: the startsWith call throws when getBlockMessage returned
undefined, and the colour_picker special case throws inside
getColorNameFromHex when the COLOUR field value is null. -/
def getBlockDescription (b : Block) (vars : List Variable) : Option String :=
  match getBlockMessage b (some vars) with
  | none => none
  | some d =>
      if !(jsStartsWith d "Block of type") then some d
      else if b.btype = "p5_setup" then some "Setup block"
      else if b.btype = "p5_draw" then some "Draw block"
      else if b.btype = "p5_canvas" then
        some ("Create Canvas with width " ++ jsNull (getFieldValue b "WIDTH") ++
          " and height " ++ jsNull (getFieldValue b "HEIGHT"))
      else if b.btype = "math_number" then
        some ("Number block with value " ++ jsNull (getFieldValue b "NUM"))
      else if b.btype = "draw_emoji" then
        some ("Draw " ++
          (match getFieldValue b "emoji" with
           | some e => getEmojiNameS e
           | none => "emoji null"))
      else if b.btype = "simple_circle" then
        some ("Draw " ++ circleColor b ++ " circle")
      else if b.btype = "colour_picker" then
        (match getFieldValue b "COLOUR" with
         | none => none
         | some hex => some ("Color: " ++ getColorNameFromHex hex))
      else
        (match b.bfields.filter (fun f => f.editable) with
         | [] => some (sanitizeType b.btype ++ " block")
         | ef => some (sanitizeType b.btype ++ " block with " ++ fieldDescs ef))

/-- The conditions under which the describer pipeline is exception-free and
produces nonempty text: the controls_whileUntil template must see a valid
MODE, the colour_picker special case must see a present COLOUR value, and
the two templates that return a bare interpolated value (math_number and
variables_get) must not produce the empty string.  All conditions concern
the top-level block only: deeper in the tree a bad MODE merely interpolates
as undefined and empty child texts are wrapped in nonempty template text. -/
def descSafe (b : Block) (vars : List Variable) : Prop :=
  (b.btype = "controls_whileUntil" →
    getFieldValue b "MODE" = some "WHILE" ∨ getFieldValue b "MODE" = some "UNTIL") ∧
  (b.btype = "colour_picker" → (getFieldValue b "COLOUR").isSome = true) ∧
  (b.btype = "math_number" → jsNull (getFieldValue b "NUM") ≠ "") ∧
  (b.btype = "variables_get" → resolvedVarName (some vars) b.bfields ≠ "")

/-!
Conclusion bundles for the claims about the scheduler, stated as Prop-valued
definitions so that each claim theorem and its witness share one statement.
-/

/-- Conclusion of claim C1 for one enabled speak call: the pending slot can
only keep its old content, be cleared, or hold exactly the new message; a
call that takes the store-as-pending branch always overwrites the slot with
its own message; and a high-priority call leaves no older pending message
and no older timer payload behind. -/
def pendingSlotProp (st : SRState) (now : Nat) (m : String) (prio : Priority) : Prop :=
  ((speak st now m prio).pendingMessage = st.pendingMessage ∨
   (speak st now m prio).pendingMessage = none ∨
   (speak st now m prio).pendingMessage = some m) ∧
  (st.currentUtterance.isSome = true → st.deviceQueue ≠ [] →
    (prio = Priority.high → now - st.utteranceStartTime ≤ 200) →
    now - st.utteranceStartTime < minSpeakTime →
    (speak st now m prio).pendingMessage = some m) ∧
  (prio = Priority.high →
    ((speak st now m prio).pendingMessage = none ∨
     (speak st now m prio).pendingMessage = some m) ∧
    ((speak st now m prio).interruptionTimer = none ∨
     ∃ ft, (speak st now m prio).interruptionTimer = some (ft, m)))

/-- Conclusion of claim C2 for one enabled speak call: the three playing
dispatch branches, the idle branch, the disarm-on-arrival rule for the
interruption timer, and the firing behaviour of the interruption timer and
of an armed settle delay. -/
def speakDispatchProp (st : SRState) (now : Nat) (m : String) (prio : Priority) : Prop :=
  (st.currentUtterance.isSome = true → st.deviceQueue ≠ [] →
    ((prio = Priority.high ∧ now - st.utteranceStartTime > 200 →
       (speak st now m prio).deviceQueue = [] ∧
       (speak st now m prio).currentUtterance = none ∧
       (speak st now m prio).pendingMessage = none ∧
       (speak st now m prio).settleTimers = st.settleTimers ++ [(now + 50, m)] ∧
       (speak st now m prio).spoken = st.spoken) ∧
     (¬(prio = Priority.high ∧ now - st.utteranceStartTime > 200) →
       now - st.utteranceStartTime < minSpeakTime →
       (speak st now m prio).pendingMessage = some m ∧
       (speak st now m prio).interruptionTimer =
         some (now + (minSpeakTime - (now - st.utteranceStartTime) + interruptionDelay), m) ∧
       (speak st now m prio).deviceQueue = st.deviceQueue ∧
       (speak st now m prio).currentUtterance = st.currentUtterance ∧
       (speak st now m prio).spoken = st.spoken) ∧
     (¬(prio = Priority.high ∧ now - st.utteranceStartTime > 200) →
       minSpeakTime ≤ now - st.utteranceStartTime →
       (speak st now m prio).deviceQueue = [] ∧
       (speak st now m prio).currentUtterance = none ∧
       (speak st now m prio).pendingMessage = none ∧
       (speak st now m prio).settleTimers = st.settleTimers ++ [(now + 50, m)] ∧
       (speak st now m prio).spoken = st.spoken))) ∧
  (¬(st.currentUtterance.isSome = true ∧ st.deviceQueue ≠ []) →
    (speak st now m prio).spoken = st.spoken ++ [m] ∧
    (speak st now m prio).currentUtterance = some m ∧
    (speak st now m prio).utteranceStartTime = now ∧
    (speak st now m prio).deviceQueue = st.deviceQueue ++ [m]) ∧
  ((speak st now m prio).interruptionTimer = none ∨
   ∃ ft, (speak st now m prio).interruptionTimer = some (ft, m)) ∧
  (∀ ft p, st.interruptionTimer = some (ft, p) →
    (timerFire st now).deviceQueue = [] ∧
    (timerFire st now).pendingMessage = none ∧
    (timerFire st now).currentUtterance = none ∧
    (timerFire st now).settleTimers = st.settleTimers ++ [(now + 50, p)]) ∧
  (∀ i ft p, st.settleTimers.get? i = some (ft, p) →
    (settleFire st now i).spoken = st.spoken ++ [p])

/-- Conclusion of claim C3: after speak A then speak B within the minimum
duration, both the natural-completion continuation and the
interruption-timer continuation speak exactly B after A, with the pending
slot cleared; and in general, on output-end a present pending message is
spoken at once with the slot cleared before it starts. -/
def pendingCollapseProp (t0 t1 : Nat) (a b : String) : Prop :=
  (∀ t2, (onend (speak (speak initState t0 a Priority.normal) t1 b Priority.normal) t2).spoken
      = [a, b] ∧
    (onend (speak (speak initState t0 a Priority.normal) t1 b Priority.normal) t2).pendingMessage
      = none ∧
    (onend (speak (speak initState t0 a Priority.normal) t1 b Priority.normal) t2).currentUtterance
      = some b) ∧
  (∀ tf ts,
    (settleFire (timerFire (speak (speak initState t0 a Priority.normal) t1 b Priority.normal) tf) ts 0).spoken
      = [a, b] ∧
    (settleFire (timerFire (speak (speak initState t0 a Priority.normal) t1 b Priority.normal) tf) ts 0).pendingMessage
      = none)

/-- Conclusion of the general pending-wins-over-silence rule of claim C3. -/
def onendDrainProp (st : SRState) (now : Nat) (p : String) : Prop :=
  (onend st now).spoken = st.spoken ++ [p] ∧
  (onend st now).pendingMessage = none ∧
  (onend st now).currentUtterance = some p

/-- Conclusion of claim C4 for an output-device error on the in-flight
utterance: the session registers are cleared, nothing new reaches the
device, the failed head is not re-queued, and every other register is left
alone. -/
def onerrorProp (st : SRState) (rest : List String) : Prop :=
  (onerror st).currentUtterance = none ∧
  (onerror st).isSpeaking = false ∧
  (onerror st).deviceQueue = rest ∧
  (onerror st).spoken = st.spoken ∧
  (onerror st).pendingMessage = st.pendingMessage ∧
  (onerror st).interruptionTimer = st.interruptionTimer ∧
  (onerror st).settleTimers = st.settleTimers ∧
  (onerror st).isEnabled = st.isEnabled

/-- Conclusion of the amended claim C5: an enabled forceSpeek clears the
interruption timer, the pending slot, the device queue and the register,
arms a 100ms settle delay holding its message and speaks nothing itself;
when no earlier settle delay is armed, firing the armed delay makes the
forced message the next and only text handed to the device. -/
def forceWinsProp (st : SRState) (now : Nat) (m : String) : Prop :=
  (forceSpeek st now m).interruptionTimer = none ∧
  (forceSpeek st now m).pendingMessage = none ∧
  (forceSpeek st now m).deviceQueue = [] ∧
  (forceSpeek st now m).currentUtterance = none ∧
  (forceSpeek st now m).settleTimers = st.settleTimers ++ [(now + 100, m)] ∧
  (forceSpeek st now m).spoken = st.spoken ∧
  (st.settleTimers = [] →
    (settleFire (forceSpeek st now m) (now + 100) 0).spoken = st.spoken ++ [m])

/-- Conclusion of the amended claim C6: while disabled, direct speak and
forceSpeek calls are no-ops; disabling cancels the device and clears the
current and pending registers but leaves the interruption timer and any
armed settle delay untouched; re-enabling only flips the flag. -/
def disableProp (st : SRState) (now : Nat) (m : String) (prio : Priority) : Prop :=
  (st.isEnabled = false → speak st now m prio = st ∧ forceSpeek st now m = st) ∧
  (setEnabled st false).isEnabled = false ∧
  (setEnabled st false).currentUtterance = none ∧
  (setEnabled st false).pendingMessage = none ∧
  (setEnabled st false).deviceQueue = [] ∧
  (setEnabled st false).interruptionTimer = st.interruptionTimer ∧
  (setEnabled st false).settleTimers = st.settleTimers ∧
  (setEnabled st false).spoken = st.spoken ∧
  (setEnabled st true).isEnabled = true ∧
  (setEnabled st true).pendingMessage = st.pendingMessage ∧
  (setEnabled st true).deviceQueue = st.deviceQueue

/-- A representative busy state: the utterance A is in flight since time 0,
an older message P sits in the pending slot with its interruption timer
armed. -/
def stBusy : SRState :=
  { isEnabled := true, currentUtterance := some "A", utteranceStartTime := 0,
    pendingMessage := some "P", interruptionTimer := some (800, "P"),
    isSpeaking := true, settleTimers := [], deviceQueue := ["A"],
    spoken := ["A"] }

/-- The same busy state with the engine disabled. -/
def stBusyDisabled : SRState :=
  { stBusy with isEnabled := false }

/-!
Helper lemmas shared by the claim theorems.
-/

/-- Strings with equal character data are equal. -/
theorem stringDataInj (s t : String) (h : s.data = t.data) : s = t := by
  cases s; cases t; exact congrArg String.mk h

/-- A string concatenation is empty exactly when both parts are. -/
theorem append_eq_empty_iff (s t : String) : s ++ t = "" ↔ s = "" ∧ t = "" := by
  constructor
  · intro h
    have hd := congrArg String.data h
    rw [String.data_append] at hd
    have h2 := List.append_eq_nil.mp hd
    exact ⟨stringDataInj s "" h2.1, stringDataInj t "" h2.2⟩
  · rintro ⟨rfl, rfl⟩; rfl

/-- Splitting at a separator character occurring in neither left part is
injective on the left part. -/
theorem sepInjList : ∀ (l1 l2 m1 m2 : List Char), ¬ '-' ∈ l1 → ¬ '-' ∈ l2 →
    l1 ++ '-' :: m1 = l2 ++ '-' :: m2 → l1 = l2 := by
  intro l1
  induction l1 with
  | nil =>
      intro l2 m1 m2 h1 h2 h
      cases l2 with
      | nil => rfl
      | cons c cs =>
          simp only [List.nil_append, List.cons_append, List.cons.injEq] at h
          exact absurd (h.1 ▸ List.mem_cons_self c cs) h2
  | cons c cs ih =>
      intro l2 m1 m2 h1 h2 h
      cases l2 with
      | nil =>
          simp only [List.nil_append, List.cons_append, List.cons.injEq] at h
          exact absurd (h.1.symm ▸ List.mem_cons_self c cs) h1
      | cons d ds =>
          simp only [List.cons_append, List.cons.injEq] at h
          have hcs : ¬ '-' ∈ cs := fun hm => h1 (List.mem_cons_of_mem c hm)
          have hds : ¬ '-' ∈ ds := fun hm => h2 (List.mem_cons_of_mem d hm)
          rw [h.1, ih ds m1 m2 hcs hds h.2]

/-- Node keys of the shape prefix-id-suffix determine the id when the id is
hyphen-free. -/
theorem keySepInj (pre a b t1 t2 : String)
    (hna : ¬ '-' ∈ a.data) (hnb : ¬ '-' ∈ b.data)
    (h : pre ++ a ++ "-" ++ t1 = pre ++ b ++ "-" ++ t2) : a = b := by
  have hd := congrArg String.data h
  simp only [String.data_append] at hd
  simp only [List.append_assoc, List.cons_append, List.nil_append,
    List.singleton_append] at hd
  have h2 := List.append_cancel_left hd
  exact stringDataInj a b (sepInjList a.data b.data t1.data t2.data hna hnb h2)

/-- Splitting at the last occurrence of the separator character — one that
occurs in neither right part — is injective on the left part. -/
theorem sepInjLast (l1 l2 m1 m2 : List Char) (h1 : ¬ '-' ∈ m1) (h2 : ¬ '-' ∈ m2)
    (h : l1 ++ '-' :: m1 = l2 ++ '-' :: m2) : l1 = l2 := by
  have hr := congrArg List.reverse h
  simp only [List.reverse_append, List.reverse_cons, List.append_assoc,
    List.singleton_append] at hr
  have hm := sepInjList m1.reverse m2.reverse l1.reverse l2.reverse
    (fun hx => h1 (List.mem_reverse.mp hx)) (fun hx => h2 (List.mem_reverse.mp hx)) hr
  rw [hm] at hr
  have h3 := List.append_cancel_left hr
  have h4 : l1.reverse = l2.reverse := by injection h3
  rw [← List.reverse_reverse l1, h4, List.reverse_reverse]

/-- Node keys of the shape prefix-id-suffix determine the id when the suffix
after the last hyphen is hyphen-free, regardless of hyphens inside the id. -/
theorem keySepInjLast (pre a b t1 t2 : String)
    (hna : ¬ '-' ∈ t1.data) (hnb : ¬ '-' ∈ t2.data)
    (h : pre ++ a ++ "-" ++ t1 = pre ++ b ++ "-" ++ t2) : a = b := by
  have hd := congrArg String.data h
  simp only [String.data_append] at hd
  simp only [List.append_assoc, List.cons_append, List.nil_append,
    List.singleton_append] at hd
  have h2 := List.append_cancel_left hd
  exact stringDataInj a b (sepInjLast a.data b.data t1.data t2.data hna hnb h2)

/-- The digit characters below base ten are never the hyphen. -/
theorem digitChar_lt_ten_ne_dash (m : Nat) (h : m < 10) : Nat.digitChar m ≠ '-' := by
  interval_cases m <;> decide

/-- The base-ten digit expansion never emits a hyphen. -/
theorem toDigitsCore_ten_no_dash : ∀ (fuel n : Nat) (ds : List Char),
    ¬ '-' ∈ ds → ¬ '-' ∈ Nat.toDigitsCore 10 fuel n ds := by
  intro fuel
  induction fuel with
  | zero => intro n ds hds; simpa [Nat.toDigitsCore] using hds
  | succ f ih =>
      intro n ds hds
      unfold Nat.toDigitsCore
      dsimp only
      split
      · intro hmem
        rcases List.mem_cons.mp hmem with h | h
        · exact digitChar_lt_ten_ne_dash (n % 10) (Nat.mod_lt n (by decide)) h.symm
        · exact hds h
      · refine ih _ _ ?_
        intro hmem
        rcases List.mem_cons.mp hmem with h | h
        · exact digitChar_lt_ten_ne_dash (n % 10) (Nat.mod_lt n (by decide)) h.symm
        · exact hds h

/-- The decimal rendering of a natural number — here, of a numeric
connection type — contains no hyphen. -/
theorem natToString_no_dash (t : Nat) : ¬ '-' ∈ (toString t).data := by
  show ¬ '-' ∈ (Nat.repr t).data
  unfold Nat.repr Nat.toDigits
  exact toDigitsCore_ten_no_dash (t + 1) t [] (by simp)

/-- Object-map lookup through jsUndef is never empty when every value of the
map is nonempty (the undefined fallback is nonempty as well). -/
theorem jsUndef_mapGet_ne_empty (m : List (String × String)) (k : Option String)
    (hm : ∀ p ∈ m, p.2 ≠ "") : jsUndef (mapGet m k) ≠ "" := by
  cases k with
  | none => simp [mapGet, jsUndef]
  | some s =>
      simp only [mapGet]
      induction m with
      | nil => simp [jsUndef, List.lookup]
      | cons p rest ih =>
          obtain ⟨pk, pv⟩ := p
          simp only [List.lookup]
          by_cases hsp : (s == pk) = true
          · simp only [hsp, if_true, jsUndef]
            exact hm (pk, pv) (by simp)
          · simp only [hsp, if_false, Bool.false_eq_true]
            exact ih (fun q hq => hm q (List.mem_cons_of_mem (pk, pv) hq))

/-- Every template produces a message except controls_whileUntil with an
invalid MODE field. -/
theorem describeTemplate_isSome (t : String) (fs : List FieldInfo) (ins : Inputs)
    (vars : Option (List Variable)) (cv cn : List (String × Option String))
    (hmode : t = "controls_whileUntil" →
      getFV fs "MODE" = some "WHILE" ∨ getFV fs "MODE" = some "UNTIL") :
    (describeTemplate t fs ins vars cv cn).isSome = true := by
  unfold describeTemplate
  split
  all_goals first
    | rfl
    | (rcases hmode rfl with h | h <;> simp [h])
    | (split <;> rfl)

/-- Every produced template message is nonempty except possibly those of
math_number and variables_get, whose whole output is a bare interpolated
value. -/
theorem describeTemplate_ne_empty (t : String) (fs : List FieldInfo) (ins : Inputs)
    (vars : Option (List Variable)) (cv cn : List (String × Option String)) (d : String)
    (h1 : t ≠ "math_number") (h2 : t ≠ "variables_get")
    (hd : describeTemplate t fs ins vars cv cn = some d) : d ≠ "" := by
  unfold describeTemplate at hd
  split at hd
  all_goals first
    | (exact absurd rfl h1)
    | (exact absurd rfl h2)
    | (subst hd; simp [append_eq_empty_iff]; done)
    | (injection hd with hd; subst hd; simp [append_eq_empty_iff]; done)
    | (injection hd with hd; subst hd; apply jsUndef_mapGet_ne_empty; decide)
    | (subst hd; apply jsUndef_mapGet_ne_empty; decide)
    | (injection hd with hd; subst hd; split <;> simp_all; done)
    | (subst hd; split <;> simp_all; done)
    | (split at hd <;>
        first
          | (subst hd; simp [append_eq_empty_iff]; done)
          | (injection hd with hd; subst hd; simp [append_eq_empty_iff]; done)
          | (simp_all; done))
    | (simp_all; done)

/-- A type outside the template table reaches the Block-of-type fallback. -/
theorem describeTemplate_default (t : String) (fs : List FieldInfo) (ins : Inputs)
    (vars : Option (List Variable)) (cv cn : List (String × Option String))
    (hk : ¬ t ∈ tableKeys) :
    describeTemplate t fs ins vars cv cn = some ("Block of type " ++ t) := by
  unfold describeTemplate
  split
  all_goals first
    | rfl
    | (exact absurd (by decide) hk)

/-- List prefix testing extends over appended tails. -/
theorem isPrefixOf_append (p q r : List Char) (h : p.isPrefixOf q = true) :
    p.isPrefixOf (q ++ r) = true := by
  induction p generalizing q with
  | nil => simp [List.isPrefixOf]
  | cons c cs ih =>
      cases q with
      | nil => simp [List.isPrefixOf] at h
      | cons e es =>
          simp only [List.cons_append, List.isPrefixOf, Bool.and_eq_true] at h ⊢
          exact ⟨h.1, ih es h.2⟩

/-- The fallback message always passes the startsWith test of the wrapper. -/
theorem startsWith_blockOfType (t : String) :
    jsStartsWith ("Block of type " ++ t) "Block of type" = true := by
  unfold jsStartsWith
  rw [String.data_append]
  exact isPrefixOf_append _ _ _ (by decide)

/-- The math_number template is the bare interpolated NUM value. -/
theorem describeTemplate_math_number (fs : List FieldInfo) (ins : Inputs)
    (vars : Option (List Variable)) (cv cn : List (String × Option String)) :
    describeTemplate "math_number" fs ins vars cv cn = some (jsNull (getFV fs "NUM")) := rfl

/-- The variables_get template is the bare resolved variable name. -/
theorem describeTemplate_variables_get (fs : List FieldInfo) (ins : Inputs)
    (vars : Option (List Variable)) (cv cn : List (String × Option String)) :
    describeTemplate "variables_get" fs ins vars cv cn = some (resolvedVarName vars fs) := rfl

/-- Unfolding equation of getBlockMessage. -/
theorem getBlockMessage_mk (t : String) (fs : List FieldInfo) (ins : Inputs)
    (vars : Option (List Variable)) :
    getBlockMessage (Block.mk t fs ins) vars =
      describeTemplate t fs ins vars (childMsgs ins vars) (childMsgs ins none) := by
  simp [getBlockMessage]

/-- Under the descSafe conditions the wrapper neither throws nor returns
empty text. -/
theorem getBlockDescription_safe (b : Block) (vars : List Variable)
    (hsafe : descSafe b vars) :
    ∃ d, getBlockDescription b vars = some d ∧ d ≠ "" := by
  obtain ⟨t, fs, ins⟩ := b
  obtain ⟨hw, hc, hmn, hvg⟩ := hsafe
  simp only [Block.btype, getFieldValue, Block.bfields] at hw hc hmn hvg
  have hmsgEq := getBlockMessage_mk t fs ins (some vars)
  cases hdt : describeTemplate t fs ins (some vars) (childMsgs ins (some vars))
      (childMsgs ins none) with
  | none =>
      exfalso
      have hs := describeTemplate_isSome t fs ins (some vars)
        (childMsgs ins (some vars)) (childMsgs ins none) hw
      rw [hdt] at hs
      simp at hs
  | some d =>
      have hmsg : getBlockMessage (Block.mk t fs ins) (some vars) = some d := by
        rw [hmsgEq, hdt]
      cases hsw : jsStartsWith d "Block of type" with
      | false =>
          refine ⟨d, ?_, ?_⟩
          · simp [getBlockDescription, hmsg, hsw]
          · by_cases hT1 : t = "math_number"
            · subst hT1
              rw [describeTemplate_math_number] at hdt
              injection hdt with hdt
              rw [← hdt]
              exact hmn rfl
            · by_cases hT2 : t = "variables_get"
              · subst hT2
                rw [describeTemplate_variables_get] at hdt
                injection hdt with hdt
                rw [← hdt]
                exact hvg rfl
              · exact describeTemplate_ne_empty t fs ins (some vars) _ _ d hT1 hT2 hdt
      | true =>
          simp only [getBlockDescription, hmsg, hsw, Bool.not_true, Bool.false_eq_true,
            if_false, Block.btype, Block.bfields, getFieldValue]
          repeat' split
          all_goals first
            | (exact ⟨_, rfl, by simp [append_eq_empty_iff]⟩)
            | (exfalso; simp_all)

/-- A block whose type has neither a template nor a wrapper special case and
which carries no editable field is described by the sanitized type name
followed by the word block. -/
theorem getBlockDescription_fallback (b : Block) (vars : List Variable)
    (hk : ¬ b.btype ∈ tableKeys) (hs : ¬ b.btype ∈ specialKeys)
    (hf : b.bfields.filter (fun f => f.editable) = []) :
    getBlockDescription b vars = some (sanitizeType b.btype ++ " block") := by
  obtain ⟨t, fs, ins⟩ := b
  simp only [Block.btype, Block.bfields] at hk hs hf ⊢
  have hd := describeTemplate_default t fs ins (some vars)
    (childMsgs ins (some vars)) (childMsgs ins none) hk
  have hmsg : getBlockMessage (Block.mk t fs ins) (some vars) =
      some ("Block of type " ++ t) := by rw [getBlockMessage_mk, hd]
  have hsw := startsWith_blockOfType t
  simp only [specialKeys, List.mem_cons, List.not_mem_nil, or_false, not_or] at hs
  obtain ⟨h1, h2, h3, h4, h5, h6, h7⟩ := hs
  simp [getBlockDescription, hmsg, hsw, Block.btype, Block.bfields,
    h1, h2, h3, h4, h5, h6, h7, hf]

/-!
Claim theorems.
-/

/-- Claim C1: for every enabled announce call processed by the scheduler,
the pending slot holds at most one message and a newer request stored as
pending always replaces any older pending one (the slot only ever keeps its
old value, is cleared, or holds exactly the new message, and the
store-as-pending branch overwrites the slot with the new message); every
high-priority call first clears any existing pending message and any armed
interruption timer before the dispatch rules are applied, so that no older
pending message or timer payload survives a high-priority call. -/
theorem claim_c1_pending_slot (st : SRState) (now : Nat) (m : String) (prio : Priority)
    (h : st.isEnabled = true) : pendingSlotProp st now m prio := by
  obtain ⟨en, cu, ust, pm, it, isp, stt, dq, sp⟩ := st
  simp only at h
  subst h
  unfold pendingSlotProp speak
  cases prio <;>
    by_cases hcu : cu.isSome = true <;>
    by_cases hdq : dq = [] <;>
    by_cases ht1 : now - ust > 200 <;>
    by_cases ht2 : now - ust < minSpeakTime <;>
    simp_all [interruptCurrentAndSpeak, speakImmediate, minSpeakTime, interruptionDelay] <;>
    (try split <;> simp_all) <;>
    omega

/-- Claim C1 witness at a concrete busy state with an older pending message
and an armed timer. -/
theorem claim_c1_pending_slot_witness :
    stBusy.isEnabled = true ∧ pendingSlotProp stBusy 100 "B" Priority.high :=
  ⟨rfl, claim_c1_pending_slot stBusy 100 "B" Priority.high rfl⟩

/-- Claim C2: for every enabled announce call, if an utterance is playing
with elapsed time now minus session start, then high priority with elapsed
over 200ms cancels the device and schedules the new text after the 50ms
settle delay; otherwise elapsed under minSpeakTime (500ms) stores the text
as pending and arms a timer for exactly minSpeakTime minus elapsed plus
interruptionDelay (300ms) holding that text; otherwise the current utterance
is preempted immediately through the same cancel-and-settle path.  When
nothing is playing the text is spoken immediately.  Any arriving call
disarms the previously armed timer (so an overwritten or cleared pending
slot silences it), a firing timer cancels the device and schedules its
captured payload after the 50ms settle delay, and a firing settle delay
hands exactly its captured payload to the device. -/
theorem claim_c2_speak_dispatch (st : SRState) (now : Nat) (m : String) (prio : Priority)
    (h : st.isEnabled = true) : speakDispatchProp st now m prio := by
  obtain ⟨en, cu, ust, pm, it, isp, stt, dq, sp⟩ := st
  simp only at h
  subst h
  unfold speakDispatchProp speak timerFire settleFire
  cases prio <;>
    by_cases hcu : cu.isSome = true <;>
    by_cases hdq : dq = [] <;>
    by_cases ht1 : now - ust > 200 <;>
    by_cases ht2 : now - ust < minSpeakTime <;>
    simp_all [interruptCurrentAndSpeak, speakImmediate, minSpeakTime, interruptionDelay] <;>
    (try split <;> simp_all) <;>
    omega

/-- Claim C2 witness: a high-priority call at 300ms elapsed against the busy
state. -/
theorem claim_c2_speak_dispatch_witness :
    stBusy.isEnabled = true ∧ speakDispatchProp stBusy 300 "B" Priority.high :=
  ⟨rfl, claim_c2_speak_dispatch stBusy 300 "B" Priority.high rfl⟩

/-- Claim C3: when announce A (normal) starts playing from the idle state
and announce B (normal) arrives before A has played its minimum duration,
exactly B is spoken after A in both continuations — natural output-end of A
and firing of the armed interruption timer — with the pending slot cleared;
and in general, on output-end a present pending message is immediately
spoken (pending always wins over silence) with the slot cleared before it
starts. -/
theorem claim_c3_pending_collapse (t0 t1 : Nat) (a b : String)
    (h : t1 - t0 < minSpeakTime) :
    pendingCollapseProp t0 t1 a b ∧
    (∀ st now p, st.isEnabled = true → st.pendingMessage = some p →
      st.deviceQueue ≠ [] → onendDrainProp st now p) := by
  constructor
  · unfold pendingCollapseProp
    simp only [minSpeakTime] at h
    simp [initState, speak, speakImmediate, interruptCurrentAndSpeak, onend,
      timerFire, settleFire, minSpeakTime, interruptionDelay, h]
  · intro st now p he hp hq
    obtain ⟨en, cu, ust, pm, it, isp, stt, dq, sp⟩ := st
    simp only at he hp hq
    subst he hp
    cases dq with
    | nil => simp at hq
    | cons u rest =>
        unfold onendDrainProp onend
        simp [speak, speakImmediate, minSpeakTime]

/-- Claim C3 witness: A starts at 0, B arrives at 100ms. -/
theorem claim_c3_pending_collapse_witness :
    100 - 0 < minSpeakTime ∧
    (pendingCollapseProp 0 100 "A" "B" ∧
     (∀ st now p, st.isEnabled = true → st.pendingMessage = some p →
       st.deviceQueue ≠ [] → onendDrainProp st now p)) :=
  ⟨by decide, claim_c3_pending_collapse 0 100 "A" "B" (by decide)⟩

/-- Claim C4: when the output device signals a mid-utterance error, the
handler clears the session registers (no current utterance remains and
isSpeaking is reset), never hands the failed message to the device again,
does not re-queue it, and touches nothing else; the handler is a total
function, so no exception escapes, and the failure is surfaced only as a
log message in the source. -/
theorem claim_c4_onerror_session_end (st : SRState) (u : String) (rest : List String)
    (h : st.deviceQueue = u :: rest) : onerrorProp st rest := by
  obtain ⟨en, cu, ust, pm, it, isp, stt, dq, sp⟩ := st
  simp only at h
  subst h
  unfold onerrorProp onerror
  simp

/-- Claim C4 witness at the busy state. -/
theorem claim_c4_onerror_session_end_witness :
    stBusy.deviceQueue = "A" :: [] ∧ onerrorProp stBusy [] :=
  ⟨rfl, claim_c4_onerror_session_end stBusy "A" [] rfl⟩

/-- Claim C5 counterexample: the claim asserts that forceAnnounce Z makes Z
the next (and only) thing spoken even when later announce calls arrive
during the settle delay.  From the idle state, forceSpeek Z at time 0
followed by announce W at time 10 and the settle firing at time 100 hands W
to the device before Z, so W — not Z — is the next thing spoken. -/
theorem claim_c5_counterexample :
    (settleFire (speak (forceSpeek initState 0 "Z") 10 "W" Priority.normal) 100 0).spoken
      = ["W", "Z"] ∧
    (settleFire (speak (forceSpeek initState 0 "Z") 10 "W" Priority.normal) 100 0).spoken
      ≠ ["Z"] := by
  constructor
  · rfl
  · decide

/-- Claim C5 as amended: an enabled forceAnnounce clears the interruption
timer and the pending slot, cancels any in-flight utterance and arms a
100ms settle delay carrying its text; provided no earlier settle delay is
armed and no further call arrives before the settle fires, the text is the
next (and only) thing handed to the device, with all prior pending state
cleared. -/
theorem claim_c5_force_always_wins_amended (st : SRState) (now : Nat) (m : String)
    (h : st.isEnabled = true) : forceWinsProp st now m := by
  obtain ⟨en, cu, ust, pm, it, isp, stt, dq, sp⟩ := st
  simp only at h
  subst h
  unfold forceWinsProp forceSpeek settleFire
  simp [speakImmediate]
  intro hstt
  subst hstt
  simp

/-- Claim C5 amended witness at the busy state. -/
theorem claim_c5_force_always_wins_amended_witness :
    stBusy.isEnabled = true ∧ forceWinsProp stBusy 900 "Z" :=
  ⟨rfl, claim_c5_force_always_wins_amended stBusy 900 "Z" rfl⟩

/-- Claim C6 counterexample: the claim asserts that while disabled nothing —
including the deferred effect of a previously armed interruption timer —
reaches the output device, and that disabling leaves no dangling timers.
After announce A at 0 and announce B at 100 (arming the timer for 800),
disabling leaves the interruption timer armed, and when it fires its settle
delay hands B to the device while the engine is still disabled. -/
theorem claim_c6_counterexample :
    (setEnabled (speak (speak initState 0 "A" Priority.normal) 100 "B" Priority.normal)
        false).interruptionTimer = some (800, "B") ∧
    (settleFire (timerFire (setEnabled
        (speak (speak initState 0 "A" Priority.normal) 100 "B" Priority.normal) false)
        800) 850 0).isEnabled = false ∧
    (settleFire (timerFire (setEnabled
        (speak (speak initState 0 "A" Priority.normal) 100 "B" Priority.normal) false)
        800) 850 0).spoken = ["A", "B"] :=
  ⟨rfl, rfl, rfl⟩

/-- Claim C6 as amended: while the engine is disabled, no direct announce or
forceAnnounce call changes the state or reaches the output device; disabling
cancels the in-flight session and clears the current-utterance and pending
registers, but does not cancel an armed interruption timer or settle delay,
whose deferred effect can still reach the output device; re-enabling only
flips the flag and resumes normal behavior for subsequent calls. -/
theorem claim_c6_disabled_engine_amended (st : SRState) (now : Nat) (m : String)
    (prio : Priority) : disableProp st now m prio := by
  obtain ⟨en, cu, ust, pm, it, isp, stt, dq, sp⟩ := st
  unfold disableProp speak forceSpeek setEnabled
  cases en <;> simp

/-- Claim C6 amended witness: the disabled busy state swallows calls. -/
theorem claim_c6_disabled_engine_amended_witness :
    stBusyDisabled.isEnabled = false ∧
    (speak stBusyDisabled 50 "X" Priority.normal = stBusyDisabled ∧
     forceSpeek stBusyDisabled 50 "X" = stBusyDisabled) :=
  ⟨rfl, (claim_c6_disabled_engine_amended stBusyDisabled 50 "X" Priority.normal).1 rfl⟩

/-- Claim C7 counterexample: the normalizer is not idempotent for every
string.  The superscript-two input normalizes to the word squared with a
leading space, and a second application trims that space, so the results
differ. -/
theorem claim_c7_counterexample :
    cleanTextForScreenReader (cleanTextForScreenReader "²") ≠ cleanTextForScreenReader "²" ∧
    cleanTextForScreenReader "²" = " squared" ∧
    cleanTextForScreenReader (cleanTextForScreenReader "²") = "squared" := by
  refine ⟨by decide, rfl, rfl⟩

/-- Claim C7 as amended: the normalizer is idempotent on the sample inputs
of the spec and on representatives of every rule family (symbol table keys,
power forms, sqrt forms, function calls, hash contexts, subscript and
superscript forms occurring after other text, and plain words), though not
for every string: a substitution that emits a leading space, such as a bare
superscript digit, is trimmed by the second application. -/
theorem claim_c7_normalize_idempotent_amended :
    (normalizeSamples.all fun x =>
      cleanTextForScreenReader (cleanTextForScreenReader x) == cleanTextForScreenReader x)
      = true := by decide

/-- Claim C8: the normalizer translates the two-character comparison symbols
as wholes — never as a shorter prefix plus a stray character — and handles
the sqrt call form and the bare hash; the one-character symbols that are
textual prefixes of longer ones keep their own translations. -/
theorem claim_c8_symbol_precedence :
    cleanTextForScreenReader "<=" = "less than or equal" ∧
    cleanTextForScreenReader "sqrt(2)" = "square root of 2" ∧
    cleanTextForScreenReader "#" = "number" ∧
    cleanTextForScreenReader ">=" = "greater than or equal" ∧
    cleanTextForScreenReader "!=" = "not equal" ∧
    cleanTextForScreenReader "&&" = "and" ∧
    cleanTextForScreenReader "||" = "or" ∧
    cleanTextForScreenReader "<" = "less than" ∧
    cleanTextForScreenReader ">" = "greater than" ∧
    cleanTextForScreenReader "!" = "not" ∧
    cleanTextForScreenReader "=" = "equals" :=
  ⟨rfl, rfl, rfl, rfl, rfl, rfl, rfl, rfl, rfl, rfl, rfl⟩

/-- Claim C9 counterexample: two field locations of the same kind referring
to blocks with differing nonempty block ids can collide, because the block
id and the field name are joined with the same hyphen separator that may
occur inside an id: id a with field name b-c and id a-b with field name c
produce the same key. -/
theorem claim_c9_counterexample :
    getNodeIdentifier (ASTNode.field (some "a") "b-c") =
      getNodeIdentifier (ASTNode.field (some "a-b") "c") ∧
    ("a" : String) ≠ "a-b" ∧ ("a" : String) ≠ "" ∧ ("a-b" : String) ≠ "" := by
  refine ⟨rfl, by decide, by decide, by decide⟩

/-- Claim C9 as amended: the identity key function is a deterministic total
function; every workspace-root location maps to the single key workspace;
differing nonempty block ids yield differing keys unconditionally for the
block, stack and connection kinds — for connection because the key ends in
the decimal digits of the numeric connection type, so the segment after the
last hyphen disambiguates even ids containing hyphens — and for the field
and input kinds whenever the ids contain no hyphen (an id containing the
hyphen separator can collide with the appended field-name or input-name
component); unrecognized node kinds map to the generic unknown-type key. -/
theorem claim_c9_node_identity_amended :
    (∀ w, getNodeIdentifier (ASTNode.workspace w) = "workspace") ∧
    (∀ a b, a ≠ "" → b ≠ "" → a ≠ b →
      getNodeIdentifier (ASTNode.block (some a)) ≠
      getNodeIdentifier (ASTNode.block (some b))) ∧
    (∀ a b, a ≠ "" → b ≠ "" → a ≠ b →
      getNodeIdentifier (ASTNode.stack (some a)) ≠
      getNodeIdentifier (ASTNode.stack (some b))) ∧
    (∀ a b t1 t2, a ≠ "" → b ≠ "" → a ≠ b →
      getNodeIdentifier (ASTNode.connection (some a) t1) ≠
      getNodeIdentifier (ASTNode.connection (some b) t2)) ∧
    (∀ a b n1 n2, a ≠ "" → b ≠ "" → a ≠ b → ¬ '-' ∈ a.data → ¬ '-' ∈ b.data →
      getNodeIdentifier (ASTNode.field (some a) n1) ≠
      getNodeIdentifier (ASTNode.field (some b) n2)) ∧
    (∀ a b n1 n2, a ≠ "" → b ≠ "" → a ≠ b → ¬ '-' ∈ a.data → ¬ '-' ∈ b.data →
      getNodeIdentifier (ASTNode.input (some a) n1) ≠
      getNodeIdentifier (ASTNode.input (some b) n2)) ∧
    (∀ t, getNodeIdentifier (ASTNode.other t) = "unknown-" ++ t) ∧
    (∀ n, getNodeIdentifier n = getNodeIdentifier n) := by
  refine ⟨fun w => rfl, ?_, ?_, ?_, ?_, ?_, fun t => rfl, fun n => rfl⟩
  · intro a b ha hb hab h
    simp only [getNodeIdentifier, orUnknown, if_neg ha, if_neg hb] at h
    have hd := congrArg String.data h
    rw [String.data_append, String.data_append] at hd
    exact hab (stringDataInj a b (List.append_cancel_left hd))
  · intro a b ha hb hab h
    simp only [getNodeIdentifier, orUnknown, if_neg ha, if_neg hb] at h
    have hd := congrArg String.data h
    rw [String.data_append, String.data_append] at hd
    exact hab (stringDataInj a b (List.append_cancel_left hd))
  · intro a b t1 t2 ha hb hab h
    simp only [getNodeIdentifier, orUnknown, if_neg ha, if_neg hb] at h
    exact hab (keySepInjLast "connection-" a b (toString t1) (toString t2)
      (natToString_no_dash t1) (natToString_no_dash t2) h)
  · intro a b n1 n2 ha hb hab hna hnb h
    simp only [getNodeIdentifier, orUnknown, if_neg ha, if_neg hb] at h
    exact hab (keySepInj "field-" a b n1 n2 hna hnb h)
  · intro a b n1 n2 ha hb hab hna hnb h
    simp only [getNodeIdentifier, orUnknown, if_neg ha, if_neg hb] at h
    exact hab (keySepInj "input-" a b n1 n2 hna hnb h)

/-- Claim C9 amended witness: distinct hyphen-free block ids give distinct
block keys and distinct field keys. -/
theorem claim_c9_node_identity_amended_witness :
    ("x" : String) ≠ "" ∧ ("y" : String) ≠ "" ∧ ("x" : String) ≠ "y" ∧
    ¬ '-' ∈ ("x" : String).data ∧ ¬ '-' ∈ ("y" : String).data ∧
    getNodeIdentifier (ASTNode.block (some "x")) ≠
      getNodeIdentifier (ASTNode.block (some "y")) ∧
    getNodeIdentifier (ASTNode.field (some "x") "n") ≠
      getNodeIdentifier (ASTNode.field (some "y") "n") :=
  ⟨by decide, by decide, by decide, by decide, by decide,
   claim_c9_node_identity_amended.2.1 "x" "y" (by decide) (by decide) (by decide),
   claim_c9_node_identity_amended.2.2.2.2.1 "x" "y" "n" "n" (by decide) (by decide)
     (by decide) (by decide) (by decide)⟩

/-- Claim C10 counterexample: the describer can throw.  A colour_picker
block with no COLOUR field reaches the wrapper special case, getFieldValue
returns null, and getColorNameFromHex throws calling replace on null; the
model returns none for the escaping exception. -/
theorem claim_c10_counterexample :
    getBlockDescription (Block.mk "colour_picker" [] Inputs.nil) [] = none := rfl

/-- Claim C10 as amended: the describer returns nonempty text for every
block outside four top-level trap shapes (a controls_whileUntil with an
invalid MODE makes the template return undefined and the startsWith call
throw; a colour_picker with a null COLOUR value makes the hex naming throw;
a math_number whose NUM value is the empty string and a variables_get whose
resolved name is empty produce empty text); a block whose type has no
template and no special case and which has no editable field is described
exactly by the sanitized type name (underscores to spaces) followed by the
word block; a missing connected child is replaced by a generic placeholder
noun, as witnessed by the childless controls_if description and by every
template producing a message on a childless fieldless block. -/
theorem claim_c10_describer_amended :
    (∀ b vars, descSafe b vars → ∃ d, getBlockDescription b vars = some d ∧ d ≠ "") ∧
    (∀ b vars, ¬ b.btype ∈ tableKeys → ¬ b.btype ∈ specialKeys →
      b.bfields.filter (fun f => f.editable) = [] →
      getBlockDescription b vars = some (sanitizeType b.btype ++ " block")) ∧
    getBlockMessage (Block.mk "controls_if" [] Inputs.nil) (some []) =
      some "If condition then statement" ∧
    ((tableKeys.filter (fun t => t ≠ "controls_whileUntil")).all
      (fun t => (getBlockMessage (Block.mk t [] Inputs.nil) (some [])).isSome)) = true :=
  ⟨getBlockDescription_safe, getBlockDescription_fallback, rfl, by decide⟩

/-- Claim C10 amended witness: a fieldless block of an unknown type is safe
and falls back to the sanitized type name plus the word block. -/
theorem claim_c10_describer_amended_witness :
    descSafe (Block.mk "foo_bar" [] Inputs.nil) [] ∧
    (∃ d, getBlockDescription (Block.mk "foo_bar" [] Inputs.nil) [] = some d ∧ d ≠ "") ∧
    ¬ (Block.mk "foo_bar" [] Inputs.nil).btype ∈ tableKeys ∧
    ¬ (Block.mk "foo_bar" [] Inputs.nil).btype ∈ specialKeys ∧
    (Block.mk "foo_bar" [] Inputs.nil).bfields.filter (fun f => f.editable) = [] ∧
    getBlockDescription (Block.mk "foo_bar" [] Inputs.nil) [] =
      some (sanitizeType "foo_bar" ++ " block") :=
  ⟨by refine ⟨?_, ?_, ?_, ?_⟩ <;> (intro h; exact absurd h (by decide)),
   claim_c10_describer_amended.1 _ _
     (by refine ⟨?_, ?_, ?_, ?_⟩ <;> (intro h; exact absurd h (by decide))),
   by decide, by decide, rfl,
   claim_c10_describer_amended.2.1 _ _ (by decide) (by decide) rfl⟩

end BlocklyScreenReader
